import Mathlib

/-!
Verification development for the todo-rs repository.

Shallow embedding of the authentication core:
* `jwtverifier` crate (`src/jwtverifier/src/lib.rs`): `JwtVerifier`, `fetch_jwt`,
  `verify_jwt`, with the validation pipeline of the `jsonwebtoken` crate (v8,
  the version providing `jwk::JwkSet` / `DecodingKey::from_jwk` used by the
  source) inlined where the source calls into it.
* server auth path (`src/todo/src/auth/with_jwt.rs`, `src/todo/src/auth/cache.rs`,
  `src/src/routes/userinfo.rs`, `src/src/storage/mongostore.rs`).
* `MemStore` todo operations (`src/src/storage/memstore.rs`).
* CLI credential refresh (`src/todo/src/auth/get_token.rs`) and device-code
  polling (`src/todo/src/auth/login.rs`).

Network calls, clock reads and fresh UUIDs are passed in as explicit values;
everything else is translated directly from the source.
-/

namespace Todors

/-! ### JWKS / token data model (`jsonwebtoken` types as used by the source) -/

/-- JWT signing algorithm.  The source only ever validates `RS256`
(`Validation::new(jsonwebtoken::Algorithm::RS256)`); every other algorithm is
collapsed into `other`. -/
inductive Alg where
  | RS256
  | other
deriving DecidableEq, Repr

/-- One JWK from the discovery document: key id plus public key material.
The key material is abstracted to a `Nat`; a signature made with material `m`
verifies exactly against a key with material `m` (standard abstraction of the
RSA signature check). -/
structure Jwk where
  kid : String
  material : Nat
deriving DecidableEq, Repr

/-- `jsonwebtoken::jwk::JwkSet`: the parsed `jwks.json` document. -/
structure JwkSet where
  keys : List Jwk
deriving DecidableEq, Repr

/-- `JwkSet::find`: first key whose key id matches. -/
def JwkSet.find (s : JwkSet) (kid : String) : Option Jwk :=
  s.keys.find? (fun j => j.kid = kid)

/-- The claims structure the server decodes
(`src/src/auth/claims.rs` / the `Claims` used with the verifier). -/
structure Claims where
  iss : String
  sub : String
  aud : List String
  iat : Nat
  exp : Nat
  azp : String
  scope : String
deriving DecidableEq, Repr

/-- JWT header as read by `jsonwebtoken::decode_header`. -/
structure Header where
  alg : Alg
  kid : Option String
deriving DecidableEq, Repr

/-- A raw token string, abstracted to its parse: either it does not have the
three-part JWT structure (`decode_header` fails), or it parses into a header,
a claims payload, and a signature.  `sigMaterial` records the key material of
the key that produced the signature, so that the signature check of
`jsonwebtoken::decode` is `jwk.material = sigMaterial`. -/
inductive Jwt where
  | malformed
  | token (header : Header) (claims : Claims) (sigMaterial : Nat)
deriving DecidableEq, Repr

/-- Errors of the verification path.  String errors of the source
(`"kid not found in jwt header"`, `"jwk not found"`) and the `jsonwebtoken`
error kinds are mapped to one constructor each. -/
inductive VerifyError where
  | malformedToken      -- decode_header failed
  | missingKid          -- "kid not found in jwt header"
  | unknownKey          -- "jwk not found"
  | invalidAlgorithm    -- header alg not in validation.algorithms
  | badSignature        -- signature does not verify under the located key
  | expired             -- ExpiredSignature
  | audienceMismatch    -- InvalidAudience
  | fetchFailed         -- reqwest / parse error while fetching jwks.json
deriving DecidableEq, Repr

/-- Default leeway of `jsonwebtoken::Validation::new` (v8): 60 seconds.  The
source never overrides it. -/
def jsonwebtokenLeeway : Nat := 60

/-- `verify_jwt` (`src/jwtverifier/src/lib.rs` lines 59-82), with the
`jsonwebtoken::decode` pipeline inlined:
1. `decode_header`, failing on a malformed token;
2. header `kid` required;
3. `jwks.find(kid)`, failing with the unknown-key error (`"jwk not found"`);
4. `decode`: algorithm check (`RS256` only), signature verification, then
   claim validation: `exp < now - leeway` fails with `expired` (leeway 60,
   `u64` arithmetic modelled by truncated `Nat` subtraction, faithful for any
   realistic `now ≥ 60`), then the audience list must intersect the required
   audience set `{aud}`. -/
def verify_jwt (now : Nat) (jwt : Jwt) (jwks : JwkSet) (aud : String) :
    Except VerifyError Claims :=
  match jwt with
  | .malformed => .error .malformedToken
  | .token header claims sigMaterial =>
    match header.kid with
    | none => .error .missingKid
    | some kid =>
      match jwks.find kid with
      | none => .error .unknownKey
      | some jwk =>
        if header.alg ≠ Alg.RS256 then .error .invalidAlgorithm
        else if jwk.material ≠ sigMaterial then .error .badSignature
        else if claims.exp < now - jsonwebtokenLeeway then .error .expired
        else if ¬ aud ∈ claims.aud then .error .audienceMismatch
        else .ok claims

/-! ### `JwtVerifier` (`src/jwtverifier/src/lib.rs` lines 6-52) -/

/-- The verifier state: domain, optional cached `JwkSet`, cache flag. -/
structure JwtVerifier where
  domain : String
  jwks_cache : Option JwkSet
  use_cache : Bool
deriving DecidableEq, Repr

/-- `JwtVerifier::new`: empty cache, caching disabled. -/
def JwtVerifier.new (domain : String) : JwtVerifier :=
  { domain := domain, jwks_cache := none, use_cache := false }

/-- Builder method `use_cache`. -/
def JwtVerifier.useCache (v : JwtVerifier) (value : Bool) : JwtVerifier :=
  { v with use_cache := value }

/-- Builder method `build` (field-for-field copy). -/
def JwtVerifier.build (v : JwtVerifier) : JwtVerifier := v

/-- The network: maps a URL to a fetched-and-parsed `JwkSet` or a fetch
failure (`fetch_jwt`). -/
def FetchEnv := String → Except Unit JwkSet

/-- Result of one `JwtVerifier::verify` call: the verification outcome plus
the number of fetches of the discovery document performed during the call. -/
structure VerifyCallResult where
  result : Except VerifyError Claims
  fetches : Nat
deriving Repr

/-- `JwtVerifier::verify` (`src/jwtverifier/src/lib.rs` lines 34-51).

Rust signature: `pub async fn verify<Claims>(mut self, jwt: &str, aud: &str)`.
`self` is taken **by value**: the verifier is consumed by the call, so the
assignment `self.jwks_cache = Some(jwks.clone())` mutates a local that is
dropped when the call returns.  Correspondingly this function returns no
updated verifier — there is none to observe. -/
def JwtVerifier.verify (env : FetchEnv) (now : Nat) (self : JwtVerifier)
    (jwt : Jwt) (aud : String) : VerifyCallResult :=
  match self.use_cache with
  | true =>
    match self.jwks_cache with
    | some jwks => { result := verify_jwt now jwt jwks aud, fetches := 0 }
    | none =>
      match env (self.domain ++ "/.well-known/jwks.json") with
      | .error _ => { result := .error .fetchFailed, fetches := 1 }
      | .ok jwks => { result := verify_jwt now jwt jwks aud, fetches := 1 }
  | false =>
    match env (self.domain ++ "/.well-known/jwks.json") with
    | .error _ => { result := .error .fetchFailed, fetches := 1 }
    | .ok jwks => { result := verify_jwt now jwt jwks aud, fetches := 1 }

/-- Two verification calls as the request path makes them
(`src/todo/src/auth/with_jwt.rs` lines 16-23): each request receives
`jwt_verifier.clone()` of the verifier built at startup and consumes the
clone; the total number of discovery-document fetches is the sum over the two
calls. -/
def twoRequestFetches (env : FetchEnv) (now : Nat) (base : JwtVerifier)
    (jwt₁ jwt₂ : Jwt) (aud : String) : Nat :=
  (JwtVerifier.verify env now base jwt₁ aud).fetches +
    (JwtVerifier.verify env now base jwt₂ aud).fetches

/-! ### User model and identity cache
(`src/src/model/user.rs`, `src/todo/src/auth/cache.rs`) -/

/-- `User` record: internal id, external id, name, email, tenant id. -/
structure User where
  id : String
  external_id : String
  name : String
  email : String
  tenant_id : String
deriving DecidableEq, Repr

/-- `User::new` (`src/src/model/user.rs`): the internal id is
`Uuid::new_v4()`, supplied here as the explicit `freshId`. -/
def User.new (freshId : String) (external_id name email tenant_id : String) :
    User :=
  { id := freshId, external_id := external_id, name := name, email := email,
    tenant_id := tenant_id }

/-- `UserContext` (`src/src/storage/store.rs`). -/
structure UserContext where
  tenant_id : String
  user_id : String
deriving DecidableEq, Repr

/-- `UserCache` (`src/todo/src/auth/cache.rs`): an `LruCache<String, User>`
with the given capacity.  Entries are kept most-recently-used first; the
length never exceeds `capacity`. -/
structure UserCache where
  capacity : Nat
  entries : List (String × User)
deriving DecidableEq, Repr

/-- `LruCache::get`: on a hit the entry is promoted to most-recently-used;
returns the value and the updated cache. -/
def UserCache.get (c : UserCache) (k : String) : Option User × UserCache :=
  match c.entries.find? (fun e => e.fst = k) with
  | none => (none, c)
  | some e =>
    (some e.snd,
      { c with entries := e :: c.entries.filter (fun e₂ => e₂.fst ≠ k) })

/-- `LruCache::put`: insert (or replace) as most-recently-used, evicting the
least-recently-used entries beyond the capacity. -/
def UserCache.put (c : UserCache) (k : String) (u : User) : UserCache :=
  { c with
    entries := ((k, u) :: c.entries.filter (fun e => e.fst ≠ k)).take c.capacity }

/-! ### Persistent user store (`src/src/storage/mongostore.rs`) -/

/-- Storage error enumeration (`src/src/error.rs`). -/
inductive StoreError where
  | notFound
  | unauthorized
  | invalidToken
  | databaseOperationFailed
deriving DecidableEq, Repr

/-- The Mongo-backed user collection plus an availability flag (an
unavailable database makes every operation return the wrapped driver
error, i.e. `DatabaseOperationFailed` through `mongo_result`). -/
structure UserStore where
  users : List User
  available : Bool
deriving Repr

/-- `MongoStore::get_user` (`src/src/storage/mongostore.rs` lines 160-166):
`find_one` on `external_id`, passed through `mongo_result`, which maps
`Ok(None)` to `Err(Error::NotFound)` — an absent user is reported as an
error, never as `Ok(None)`. -/
def MongoStore.get_user (s : UserStore) (external_user_id : String) :
    Except StoreError (Option User) :=
  if s.available then
    match s.users.find? (fun u => u.external_id = external_user_id) with
    | some u => .ok (some u)
    | none => .error .notFound
  else .error .databaseOperationFailed

/-- `MongoStore::create_user` (`src/src/storage/mongostore.rs` lines
142-158): builds `User::new(external_id, name, email, Uuid::new_v4())` (the
fresh tenant id and fresh user id are supplied explicitly) and `insert_one`s
it. -/
def MongoStore.create_user (s : UserStore) (freshUserId freshTenantId : String)
    (external_id name email : String) : Except StoreError (User × UserStore) :=
  if s.available then
    let user := User.new freshUserId external_id name email freshTenantId
    .ok (user, { s with users := s.users ++ [user] })
  else .error .databaseOperationFailed

/-! ### Identity resolution (`src/todo/src/auth/with_jwt.rs` lines 38-63) -/

/-- The resolution step of `with_jwt`, from the verified subject claim to a
`UserContext`: try the cache, else query the store; a store hit is inserted
into the cache; `Ok(None)` and `Err(_)` from the store both reject with
`InvalidToken`.  No provisioning happens on this path.  Returns the outcome
and the updated cache. -/
def resolveUser (cache : UserCache) (store : UserStore)
    (external_user_id : String) : Except StoreError UserContext × UserCache :=
  match UserCache.get cache external_user_id with
  | (some user, cache₁) =>
    (.ok { user_id := user.id, tenant_id := user.tenant_id }, cache₁)
  | (none, cache₁) =>
    match MongoStore.get_user store external_user_id with
    | .ok (some user) =>
      (.ok { user_id := user.id, tenant_id := user.tenant_id },
        UserCache.put cache₁ external_user_id user)
    | .ok none => (.error .invalidToken, cache₁)
    | .error _ => (.error .invalidToken, cache₁)

/-! ### The `userinfo` route (`src/src/routes/userinfo.rs`) -/

/-- Outcome of `fetch_user_info`: the `(name, email)` pair from the identity
provider, or a failure (network / JSON / missing field), which the handler
rejects as `InvalidToken`. -/
def UserInfoLookup := Except Unit (String × String)

/-- `user_info` (`src/src/routes/userinfo.rs` lines 42-61) over the abstract
store results, exactly as the handler matches them: a found user is returned;
`Ok(None)` triggers the user-info lookup and `create_user`; any store error
rejects with `InvalidToken`. -/
def user_info (getUserResult : Except StoreError (Option User))
    (lookup : UserInfoLookup)
    (createUserResult : String → String → Except StoreError (User × UserStore))
    (fallbackUsers : List User) : Except StoreError User × List User :=
  match getUserResult with
  | .ok (some user) => (.ok user, fallbackUsers)
  | .ok none =>
    match lookup with
    | .error _ => (.error .invalidToken, fallbackUsers)
    | .ok (name, email) =>
      match createUserResult name email with
      | .ok (user, store₁) => (.ok user, store₁.users)
      | .error e => (.error e, fallbackUsers)
  | .error _ => (.error .invalidToken, fallbackUsers)

/-- The deployed `user_info` endpoint: the handler composed with the
`MongoStore` implementations of `get_user` and `create_user`. -/
def user_info_mongo (store : UserStore) (external_user_id : String)
    (lookup : UserInfoLookup) (freshUserId freshTenantId : String) :
    Except StoreError User × List User :=
  user_info (MongoStore.get_user store external_user_id) lookup
    (fun name email =>
      MongoStore.create_user store freshUserId freshTenantId
        external_user_id name email)
    store.users

/-! ### Todo model and `MemStore`
(`src/todo/src/model/todo.rs`, `src/src/storage/memstore.rs`) -/

/-- `Todo` record. -/
structure Todo where
  id : String
  tenant_id : String
  user_id : String
  task : String
  completed : Bool
deriving DecidableEq, Repr

/-- `UpdateTodo`: optional new task text and completion flag. -/
structure UpdateTodo where
  task : Option String
  completed : Option Bool
deriving DecidableEq, Repr

/-- The `MemStore` map `HashMap<String, Todo>`, keyed by todo id, as an
association list. -/
def TodoMap := List (String × Todo)

/-- `HashMap::get`. -/
def TodoMap.get (m : TodoMap) (id : String) : Option Todo :=
  (List.find? (fun e => e.fst = id) m).map Prod.snd

/-- `MemStore::get_todo` (`src/src/storage/memstore.rs` lines 59-68): a found
todo whose ids differ from the context is `Unauthorized`; a found todo with
matching ids is returned; an absent id is `NotFound`. -/
def MemStore.get_todo (m : TodoMap) (ctx : UserContext) (id : String) :
    Except StoreError (Option Todo) :=
  match TodoMap.get m id with
  | some todo =>
    if todo.user_id ≠ ctx.user_id ∨ todo.tenant_id ≠ ctx.tenant_id then
      .error .unauthorized
    else .ok (some todo)
  | none => .error .notFound

/-- `MemStore::get_todos` (lines 70-78): every stored todo whose tenant id
and user id both equal the context's. -/
def MemStore.get_todos (m : TodoMap) (ctx : UserContext) : List Todo :=
  (m.filter (fun e =>
    e.snd.tenant_id = ctx.tenant_id ∧ e.snd.user_id = ctx.user_id)).map
    Prod.snd

/-- The in-place field update `update_todo` applies to a matching todo. -/
def applyUpdate (todo : Todo) (u : UpdateTodo) : Todo :=
  { todo with
    completed := match u.completed with
      | some completed => completed
      | none => todo.completed
    task := match u.task with
      | some task => task
      | none => todo.task }

/-- `MemStore::update_todo` (lines 80-103): a found todo with mismatched ids
is `Unauthorized` and the map is untouched; a matching todo is updated in
place and returned; an absent id is `NotFound`.  Returns the outcome and the
updated map. -/
def MemStore.update_todo (m : TodoMap) (ctx : UserContext) (id : String)
    (u : UpdateTodo) : Except StoreError (Option Todo) × TodoMap :=
  match TodoMap.get m id with
  | some todo =>
    if todo.user_id ≠ ctx.user_id ∨ todo.tenant_id ≠ ctx.tenant_id then
      (.error .unauthorized, m)
    else
      let todo₁ := applyUpdate todo u
      (.ok (some todo₁),
        m.map (fun e => if e.fst = id then (e.fst, todo₁) else e))
  | none => (.error .notFound, m)

/-- `MemStore::delete_todo` (lines 105-113): a found todo with matching ids
is removed and returned; otherwise (mismatch or absent) `NotFound` with the
map untouched. -/
def MemStore.delete_todo (m : TodoMap) (ctx : UserContext) (id : String) :
    Except StoreError (Option Todo) × TodoMap :=
  match TodoMap.get m id with
  | some todo =>
    if todo.tenant_id = ctx.tenant_id ∧ todo.user_id = ctx.user_id then
      (.ok (some todo), m.filter (fun e => e.fst ≠ id))
    else (.error .notFound, m)
  | none => (.error .notFound, m)

/-! ### Mongo-backed todo collection (`src/src/storage/mongostore.rs`) -/

/-- The Mongo `Todos` collection plus an availability flag (an unavailable
database surfaces as `DatabaseOperationFailed` through `mongo_result`). -/
structure TodoCol where
  todos : List Todo
  available : Bool
deriving Repr

/-- The filter document of the per-todo Mongo queries
(`doc! { "id": id, "tenant_id": ctx.tenant_id, "user_id": ctx.user_id }`):
id, tenant id and user id must all match. -/
def mongoOwnFilter (ctx : UserContext) (id : String) (t : Todo) : Bool :=
  t.id = id ∧ t.tenant_id = ctx.tenant_id ∧ t.user_id = ctx.user_id

/-- `find_one_and_update`: rewrite the first matching document in place. -/
def updateFirst (p : Todo → Bool) (f : Todo → Todo) : List Todo → List Todo
  | [] => []
  | t :: rest => if p t then f t :: rest else t :: updateFirst p f rest

/-- `find_one_and_delete`: remove the first matching document. -/
def removeFirst (p : Todo → Bool) : List Todo → List Todo
  | [] => []
  | t :: rest => if p t then rest else t :: removeFirst p rest

/-- `MongoStore::get_todo` (`src/src/storage/mongostore.rs` lines 85-93):
`find_one` under the three-field ownership filter, passed through
`mongo_result`, which maps `Ok(None)` to `Err(NotFound)`. -/
def MongoStore.get_todo (s : TodoCol) (ctx : UserContext) (id : String) :
    Except StoreError (Option Todo) :=
  if s.available then
    match s.todos.find? (mongoOwnFilter ctx id) with
    | some todo => .ok (some todo)
    | none => .error .notFound
  else .error .databaseOperationFailed

/-- `MongoStore::get_todos` (lines 95-109): `find` under the tenant/user
filter, cursor collected into a list. -/
def MongoStore.get_todos (s : TodoCol) (ctx : UserContext) :
    Except StoreError (List Todo) :=
  if s.available then
    .ok (s.todos.filter (fun t =>
      t.tenant_id = ctx.tenant_id ∧ t.user_id = ctx.user_id))
  else .error .databaseOperationFailed

/-- `MongoStore::update_todo` (lines 111-130): `find_one_and_update` under
the ownership filter with a `$set` of the present `UpdateTodo` fields (the
`update_todo!` macro); returns the pre-update document (the driver default),
through `mongo_result`.  Returns the outcome and the updated collection. -/
def MongoStore.update_todo (s : TodoCol) (ctx : UserContext) (id : String)
    (u : UpdateTodo) : Except StoreError (Option Todo) × TodoCol :=
  if s.available then
    match s.todos.find? (mongoOwnFilter ctx id) with
    | some todo =>
      let todos₁ :=
        updateFirst (mongoOwnFilter ctx id) (fun t => applyUpdate t u) s.todos
      (.ok (some todo), { s with todos := todos₁ })
    | none => (.error .notFound, s)
  else (.error .databaseOperationFailed, s)

/-- `MongoStore::delete_todo` (lines 132-140): `find_one_and_delete` under
the ownership filter, through `mongo_result`. -/
def MongoStore.delete_todo (s : TodoCol) (ctx : UserContext) (id : String) :
    Except StoreError (Option Todo) × TodoCol :=
  if s.available then
    match s.todos.find? (mongoOwnFilter ctx id) with
    | some todo =>
      (.ok (some todo),
        { s with todos := removeFirst (mongoOwnFilter ctx id) s.todos })
    | none => (.error .notFound, s)
  else (.error .databaseOperationFailed, s)

/-! ### Credential refresh (`src/todo/src/auth/get_token.rs`,
`src/cred-store/src/file-store.rs`, `src/cli/src/auth/token_response.rs`) -/

/-- A token string together with the result of
`decode_claims_without_verification` on it (`src/todo/src/auth/get_token.rs`
lines 13-25): `payloadExp = some e` when the string has the three-part form
and its base64url payload is JSON with an `exp` field equal to `e`;
`payloadExp = none` when that decoding fails.  The decode of a fixed string
is pure, so carrying its result alongside the raw string is faithful. -/
structure TokenStr where
  raw : String
  payloadExp : Option Int
deriving DecidableEq, Repr

/-- `is_token_expired` (lines 27-36): decoding failure counts as expired,
otherwise the embedded `exp` is compared with the current Unix timestamp. -/
def is_token_expired (token : TokenStr) (now : Int) : Bool :=
  match token.payloadExp with
  | none => true
  | some exp => exp < now

/-- `TokenResponse` (`src/cli/src/auth/token_response.rs`): every field
optional. -/
structure TokenResponse where
  access_token : Option TokenStr
  token_type : Option String
  refresh_token : Option TokenStr
  expires_in : Option Nat
  scope : Option String
deriving DecidableEq, Repr

/-- The credential store contents (`Credentials.data`:
`HashMap<String, String>`), as an association list. -/
def Credentials := List (String × TokenStr)

/-- `CredStore::get`. -/
def Credentials.get (c : Credentials) (k : String) : Option TokenStr :=
  (List.find? (fun e => e.fst = k) c).map Prod.snd

/-- `CredStore::add` (`HashMap::insert`). -/
def Credentials.add (c : Credentials) (k : String) (v : TokenStr) :
    Credentials :=
  (k, v) :: List.filter (fun e => e.fst ≠ k) c

/-- The observable outcome of `get_token`: the returned value, an error, or a
panic (the source unwraps the optional fields of the refresh response). -/
inductive GetTokenOutcome where
  | ok (token : Option TokenStr)
  | err
  | panicked
deriving DecidableEq, Repr

/-- Full result of a `get_token` run: its outcome, how many refresh calls
were issued to the token endpoint, and the credentials passed to
`Credentials::save` (none when `save` was never called). -/
structure GetTokenResult where
  outcome : GetTokenOutcome
  refreshCalls : Nat
  saved : Option Credentials

/-- `get_token` (`src/todo/src/auth/get_token.rs` lines 64-92).

The collaborators are explicit: `loadResult` is what `cred_store.load()`
produced, `refreshResp` is what one `refresh_access_token` call would return
(transport error or parsed `TokenResponse`), `saveOk` is whether
`credentials.save()` succeeds, and `now` is the clock.

With both tokens present and the access token expired, the source calls
`refresh_access_token` once, then `token_response.access_token.unwrap()` and
`token_response.refresh_token.unwrap()` — a panic when either field is
absent — then overwrites both entries and saves. -/
def get_token (loadResult : Except Unit Credentials) (now : Int)
    (refreshResp : Except Unit TokenResponse) (saveOk : Bool) :
    GetTokenResult :=
  match loadResult with
  | .error _ => { outcome := .err, refreshCalls := 0, saved := none }
  | .ok credentials =>
    match credentials.get "access_token", credentials.get "refresh_token" with
    | some tok, some _ =>
      if is_token_expired tok now then
        match refreshResp with
        | .error _ => { outcome := .err, refreshCalls := 1, saved := none }
        | .ok token_response =>
          match token_response.access_token, token_response.refresh_token with
          | some new_access_token, some new_refresh_token =>
            let credentials₁ :=
              (credentials.add "access_token" new_access_token).add
                "refresh_token" new_refresh_token
            if saveOk then
              { outcome := .ok (some new_access_token), refreshCalls := 1,
                saved := some credentials₁ }
            else { outcome := .err, refreshCalls := 1,
                   saved := some credentials₁ }
          | _, _ => { outcome := .panicked, refreshCalls := 1, saved := none }
      else { outcome := .ok (some tok), refreshCalls := 0, saved := none }
    | _, _ => { outcome := .ok none, refreshCalls := 0, saved := none }

/-! ### Device-code polling (`src/todo/src/auth/login.rs` lines 45-87) -/

/-- One poll of the token endpoint: either the transport / JSON-decode chain
failed, or it produced a parsed `TokenResponse`. -/
inductive PollResp where
  | transportErr
  | ok (resp : TokenResponse)
deriving DecidableEq, Repr

/-- Terminal outcome of the polling loop. -/
inductive LoginOutcome where
  | success (resp : TokenResponse)   -- response carried an access token
  | deviceCodeExpired                -- "Device code has expired"
  | transportError                   -- a poll returned Err
  | streamEnded                      -- model artifact: the finite response
                                     -- list ran out before any exit
deriving DecidableEq, Repr

/-- Result of a polling run: the outcome plus the elapsed times (seconds
since `start_instant`) at which each poll request was issued. -/
structure PollRun where
  outcome : LoginOutcome
  pollTimes : List Nat

/-- The polling loop of `login`: at the top of each cycle, if the elapsed
time has reached `expires_in` the loop exits with the device-code-expired
error **before** issuing another poll; otherwise it polls, returns on a
transport error or on a response carrying an access token, and else sleeps
for `interval` seconds and repeats.  Poll round-trips are modelled as
instantaneous; `responses` is the stream of poll results, consumed one per
cycle; `elapsed` is the time since `start_instant`. -/
def pollLoop (expires_in interval : Nat) :
    List PollResp → Nat → PollRun
  | responses, elapsed =>
    if expires_in ≤ elapsed then
      { outcome := .deviceCodeExpired, pollTimes := [] }
    else
      match responses with
      | [] => { outcome := .streamEnded, pollTimes := [] }
      | r :: rest =>
        match r with
        | .transportErr =>
          { outcome := .transportError, pollTimes := [elapsed] }
        | .ok resp =>
          match resp.access_token with
          | some _ => { outcome := .success resp, pollTimes := [elapsed] }
          | none =>
            let run := pollLoop expires_in interval rest (elapsed + interval)
            { outcome := run.outcome, pollTimes := elapsed :: run.pollTimes }

/-- A poll response with no `access_token` (user has not yet authorized). -/
def PollResp.notYetAuthorized (r : PollResp) : Prop :=
  ∃ resp, r = .ok resp ∧ resp.access_token = none

instance (r : PollResp) : Decidable r.notYetAuthorized := by
  unfold PollResp.notYetAuthorized
  match r with
  | .transportErr => exact .isFalse (by simp)
  | .ok resp =>
    match h : resp.access_token with
    | none => exact .isTrue ⟨resp, rfl, h⟩
    | some tok =>
      exact .isFalse (by rintro ⟨r₂, h₂, h₃⟩; cases h₂; simp [h] at h₃)

/-! ### Concrete sample values used in evaluations and witnesses -/

/-- Sample decoded claims (shape of the repository's `Claims`). -/
def cSample : Claims :=
  { iss := "https://tenant.example/", sub := "auth0|user1",
    aud := ["https://todos.example.com/"], iat := 1696639925,
    exp := 1696726325, azp := "client1", scope := "openid profile" }

/-- Sample signing key with key id `k1`. -/
def kSample : Jwk := { kid := "k1", material := 5 }

/-- Sample key set containing only `k1`. -/
def ksSample : JwkSet := { keys := [kSample] }

/-- A network on which every fetch of the discovery document succeeds and
returns `ksSample`. -/
def envSample : FetchEnv := fun _ => .ok ksSample

/-- The required audience used in the samples. -/
def audSample : String := "https://todos.example.com/"

/-- A well-formed token signed by `k1` carrying `cSample`. -/
def tokSample : Jwt := .token { alg := .RS256, kid := some "k1" } cSample 5

/-- A well-formed token whose header names key id `k2`, absent from
`ksSample`. -/
def tokK2 : Jwt := .token { alg := .RS256, kid := some "k2" } cSample 5

/-- A verifier with caching enabled whose cache already holds `ksSample`. -/
def vCached : JwtVerifier :=
  { domain := "https://tenant.example", jwks_cache := some ksSample,
    use_cache := true }

/-- An identity cache of capacity 100 with no entries. -/
def emptyCache : UserCache := { capacity := 100, entries := [] }

/-- An available user store that contains no users. -/
def absentStore : UserStore := { users := [], available := true }

/-- A concrete stored todo owned by tenant `ten1`, user `u1`. -/
def todoA : Todo :=
  { id := "t1", tenant_id := "ten1", user_id := "u1", task := "write docs",
    completed := false }

/-- A one-todo map. -/
def mapA : TodoMap := [("t1", todoA)]

/-- The owning context. -/
def ctxA : UserContext := { tenant_id := "ten1", user_id := "u1" }

/-- A context of a different user in the same tenant. -/
def ctxB : UserContext := { tenant_id := "ten1", user_id := "u2" }

/-- A sample update. -/
def updA : UpdateTodo := { task := some "proofread", completed := some true }

/-- An available one-todo Mongo collection holding `todoA`. -/
def colA : TodoCol := { todos := [todoA], available := true }

/-- An access token whose embedded `exp` is 100, expired by `now = 200`. -/
def tokStale : TokenStr := { raw := "stale.jwt.sig", payloadExp := some 100 }

/-- A stored refresh token. -/
def tokR0 : TokenStr := { raw := "refresh0", payloadExp := none }

/-- Credential store holding the stale pair. -/
def credsStale : Credentials :=
  [("access_token", tokStale), ("refresh_token", tokR0)]

/-- The fresh access token the refresh endpoint hands back. -/
def tokNewA : TokenStr := { raw := "new.jwt.sig", payloadExp := some 900 }

/-- The fresh refresh token the endpoint hands back. -/
def tokNewR : TokenStr := { raw := "refresh1", payloadExp := none }

/-- A successful refresh response carrying both tokens. -/
def trNew : TokenResponse :=
  { access_token := some tokNewA, token_type := some "Bearer",
    refresh_token := some tokNewR, expires_in := some 86400,
    scope := some "openid profile email offline_access" }

/-- A parsed refresh response in which every optional field is absent
(`{}`). -/
def emptyRefreshResponse : TokenResponse :=
  { access_token := none, token_type := none, refresh_token := none,
    expires_in := none, scope := none }

/-- A poll response with no fields at all: the user has not yet
authorized. -/
def notYetResp : TokenResponse :=
  { access_token := none, token_type := none, refresh_token := none,
    expires_in := none, scope := none }

/-- The token response whose access token is the string `abc`. -/
def abcResp : TokenResponse :=
  { access_token := some { raw := "abc", payloadExp := none },
    token_type := some "Bearer", refresh_token := some tokNewR,
    expires_in := some 86400, scope := some "openid" }

/-! ### C1 -/

/-- C1: for two verification calls through a caching-enabled `JwtVerifier`
for the same domain, at most one discovery-document fetch should occur, the
first call's stored KeySet being reused by the second.  Evaluating the code
at this input refutes that: `verify` takes `mut self` by value, so the
`jwks_cache` update of the first call is dropped with the consumed verifier,
and the request path hands each call a fresh clone of the startup verifier
(whose cache is `None`); two calls therefore fetch twice. -/
theorem C1_two_cached_calls_fetch_twice :
    twoRequestFetches envSample 1696726000
      (((JwtVerifier.new "https://tenant.example").useCache true).build)
      tokSample tokSample audSample = 2 := by rfl

/-! ### C2 -/

/-- C2 counterexample: the claim says a token whose `kid` matches no key in
the cached KeySet triggers exactly one forced refetch and one verification
retry before `UnknownKey` surfaces.  On the code, a cached verifier given a
token with unknown `kid` `k2` fails with the unknown-key error having
performed zero fetches — no refetch and no retry exist on any path. -/
theorem C2_counterexample :
    (JwtVerifier.verify envSample 1696726000 vCached tokK2 audSample).result
        = .error .unknownKey
    ∧ (JwtVerifier.verify envSample 1696726000 vCached tokK2 audSample).fetches
        = 0 :=
  ⟨rfl, rfl⟩

/-- C2 amended: for every caching-enabled verifier whose cache holds a
KeySet and every well-formed token whose header `kid` matches no key in that
KeySet, verification fails immediately with the unknown-key error, with no
refetch of the KeySet (zero fetches) and no retry: the failure of the single
verification attempt is terminal. -/
theorem C2_unknown_kid_fails_without_refetch (env : FetchEnv) (now : Nat)
    (v : JwtVerifier) (ks : JwkSet) (h : Header) (c : Claims) (sig : Nat)
    (k : String) (aud : String)
    (huse : v.use_cache = true) (hcache : v.jwks_cache = some ks)
    (hkid : h.kid = some k) (hfind : ks.find k = none) :
    JwtVerifier.verify env now v (.token h c sig) aud
      = { result := .error .unknownKey, fetches := 0 } := by
  simp only [JwtVerifier.verify, huse, hcache, verify_jwt, hkid, hfind]

/-- C2 witness: the amended theorem applied at the concrete cached verifier
and the concrete token with unknown key id `k2`. -/
theorem C2_unknown_kid_fails_without_refetch_witness :
    JwtVerifier.verify envSample 1696726000 vCached tokK2 audSample
      = { result := .error .unknownKey, fetches := 0 } :=
  C2_unknown_kid_fails_without_refetch envSample 1696726000 vCached ksSample
    { alg := .RS256, kid := some "k2" } cSample 5 "k2" audSample
    rfl rfl rfl (by decide)

/-! ### C3 -/

/-- C3 counterexample: the claim says a token that is otherwise valid and
whose `exp` is one whole second before the current time fails with
`Expired`, with zero clock-skew leeway.  On the code, verification at
`now = exp + 1` of such a token **succeeds**: the source builds
`jsonwebtoken::Validation::new(RS256)` and never overrides its default
60-second leeway. -/
theorem C3_counterexample :
    verify_jwt (cSample.exp + 1) tokSample ksSample audSample = .ok cSample :=
  by rfl

/-- C3 amended: for every well-formed token signed by a key present in the
KeySet, with `RS256` header and an audience list containing the required
audience, verification fails with `Expired` exactly when the token's `exp`
is more than 60 whole seconds before the current time (the default leeway of
`jsonwebtoken::Validation`), and succeeds whenever `now ≤ exp + 60` — in
particular for an `exp` one second in the past.  All comparisons are on
whole-second Unix timestamps. -/
theorem C3_expiry_uses_sixty_second_leeway (now : Nat) (h : Header)
    (c : Claims) (sig : Nat) (ks : JwkSet) (jwk : Jwk) (k : String)
    (aud : String)
    (hkid : h.kid = some k) (hfind : ks.find k = some jwk)
    (halg : h.alg = .RS256) (hsig : jwk.material = sig) (haud : aud ∈ c.aud) :
    (c.exp + jsonwebtokenLeeway < now →
      verify_jwt now (.token h c sig) ks aud = .error .expired)
    ∧ (now ≤ c.exp + jsonwebtokenLeeway →
      verify_jwt now (.token h c sig) ks aud = .ok c) := by
  have hlee : jsonwebtokenLeeway = 60 := rfl
  constructor
  · intro hlt
    have hexp : c.exp < now - jsonwebtokenLeeway := by omega
    simp [verify_jwt, hkid, hfind, halg, hsig, hexp, haud]
  · intro hle
    have hexp : ¬ c.exp < now - jsonwebtokenLeeway := by omega
    simp [verify_jwt, hkid, hfind, halg, hsig, hexp, haud]

/-- C3 witness: the amended theorem applied at the sample token, once at
`now = exp + 61` (expired) and once at `now = exp + 1` (still valid). -/
theorem C3_expiry_uses_sixty_second_leeway_witness :
    verify_jwt (cSample.exp + 61) tokSample ksSample audSample
        = .error .expired
    ∧ verify_jwt (cSample.exp + 1) tokSample ksSample audSample
        = .ok cSample :=
  ⟨(C3_expiry_uses_sixty_second_leeway (cSample.exp + 61)
      { alg := .RS256, kid := some "k1" } cSample 5 ksSample kSample "k1"
      audSample rfl (by decide) rfl rfl (by decide)).1 (by decide),
   (C3_expiry_uses_sixty_second_leeway (cSample.exp + 1)
      { alg := .RS256, kid := some "k1" } cSample 5 ksSample kSample "k1"
      audSample rfl (by decide) rfl rfl (by decide)).2 (by decide)⟩

/-! ### C4 -/

/-- C4: the claim says that an external id absent from the identity cache
and reported not-found by the persistent store is provisioned (fresh tenant
id, name/email from the user-info lookup), persisted, cached, and its
`UserContext` returned.  Evaluating the code at such an input refutes this
twice over: the `with_jwt` resolution path rejects with `InvalidToken` and
creates nothing, and the `user_info` route also rejects, because its
provisioning branch requires `get_user` to return `Ok(None)` while
`MongoStore::get_user` maps an absent user to `Err(NotFound)` through
`mongo_result` — so no `UserRecord` is created on either path even though
the user-info lookup would have succeeded. -/
theorem C4_not_found_never_provisions :
    resolveUser emptyCache absentStore "auth0|newuser"
        = (.error .invalidToken, emptyCache)
    ∧ user_info_mongo absentStore "auth0|newuser"
        (.ok ("Ada", "ada@example.com")) "uuid-user-1" "uuid-tenant-1"
        = (.error .invalidToken, absentStore.users) :=
  ⟨rfl, rfl⟩

/-! ### C5 -/

/-- C5: the todo operations of both storage backends are tenant/user
scoped.  `MemStore`: a todo is returned or modified only when its tenant id
and user id both equal the `UserContext`'s; every element of `get_todos`
matches both ids; an access to an existing todo whose ids do not match
fails (`Unauthorized` for `get_todo`/`update_todo`, `NotFound` for
`delete_todo`) and leaves the stored map unchanged.  `MongoStore`: every
todo returned by `get_todo`/`update_todo`/`delete_todo` and every element
of `get_todos` matches both ids (the ownership pair is part of every query
filter), and when no stored document satisfies the ownership filter for the
given id, all three per-todo operations fail with `NotFound` and leave the
collection unchanged. -/
theorem C5_ownership_scoping (m : TodoMap) (ctx : UserContext) (id : String)
    (u : UpdateTodo) (col : TodoCol) :
    (∀ t, MemStore.get_todo m ctx id = .ok (some t) →
      t.tenant_id = ctx.tenant_id ∧ t.user_id = ctx.user_id)
    ∧ (∀ t ∈ MemStore.get_todos m ctx,
      t.tenant_id = ctx.tenant_id ∧ t.user_id = ctx.user_id)
    ∧ (∀ t, (MemStore.update_todo m ctx id u).1 = .ok (some t) →
      t.tenant_id = ctx.tenant_id ∧ t.user_id = ctx.user_id)
    ∧ (∀ t, (MemStore.delete_todo m ctx id).1 = .ok (some t) →
      t.tenant_id = ctx.tenant_id ∧ t.user_id = ctx.user_id)
    ∧ (∀ t, TodoMap.get m id = some t →
        t.tenant_id ≠ ctx.tenant_id ∨ t.user_id ≠ ctx.user_id →
      MemStore.get_todo m ctx id = .error .unauthorized
      ∧ (MemStore.update_todo m ctx id u).1 = .error .unauthorized
      ∧ (MemStore.update_todo m ctx id u).2 = m
      ∧ (MemStore.delete_todo m ctx id).1 = .error .notFound
      ∧ (MemStore.delete_todo m ctx id).2 = m)
    ∧ (∀ t, MongoStore.get_todo col ctx id = .ok (some t) →
      t.tenant_id = ctx.tenant_id ∧ t.user_id = ctx.user_id)
    ∧ (∀ ts, MongoStore.get_todos col ctx = .ok ts →
      ∀ t ∈ ts, t.tenant_id = ctx.tenant_id ∧ t.user_id = ctx.user_id)
    ∧ (∀ t, (MongoStore.update_todo col ctx id u).1 = .ok (some t) →
      t.tenant_id = ctx.tenant_id ∧ t.user_id = ctx.user_id)
    ∧ (∀ t, (MongoStore.delete_todo col ctx id).1 = .ok (some t) →
      t.tenant_id = ctx.tenant_id ∧ t.user_id = ctx.user_id)
    ∧ (col.available = true →
        col.todos.find? (mongoOwnFilter ctx id) = none →
      MongoStore.get_todo col ctx id = .error .notFound
      ∧ MongoStore.update_todo col ctx id u = (.error .notFound, col)
      ∧ MongoStore.delete_todo col ctx id = (.error .notFound, col)) := by
  refine ⟨?_, ?_, ?_, ?_, ?_, ?_, ?_, ?_, ?_, ?_⟩
  · intro t hok
    unfold MemStore.get_todo at hok
    split at hok
    next todo hget =>
      split at hok
      · exact absurd hok (by simp)
      · next hmatch =>
          push_neg at hmatch
          obtain rfl : todo = t := by simpa using hok
          exact ⟨hmatch.2, hmatch.1⟩
    next => exact absurd hok (by simp)
  · intro t ht
    unfold MemStore.get_todos at ht
    simp only [List.mem_map, List.mem_filter] at ht
    obtain ⟨e, ⟨-, he⟩, rfl⟩ := ht
    simpa using he
  · intro t hok
    unfold MemStore.update_todo at hok
    split at hok
    next todo hget =>
      split at hok
      · exact absurd hok (by simp)
      · next hmatch =>
          push_neg at hmatch
          obtain rfl : applyUpdate todo u = t := by simpa using hok
          simp [applyUpdate, hmatch.1, hmatch.2]
    next => exact absurd hok (by simp)
  · intro t hok
    unfold MemStore.delete_todo at hok
    split at hok
    next todo hget =>
      split at hok
      · next hmatch =>
          obtain rfl : todo = t := by simpa using hok
          exact ⟨hmatch.1, hmatch.2⟩
      · exact absurd hok (by simp)
    next => exact absurd hok (by simp)
  · intro t hget hmis
    have hcond : t.user_id ≠ ctx.user_id ∨ t.tenant_id ≠ ctx.tenant_id :=
      hmis.symm
    have hcond₂ : ¬ (t.tenant_id = ctx.tenant_id ∧ t.user_id = ctx.user_id) :=
      by tauto
    refine ⟨?_, ?_, ?_, ?_, ?_⟩
    · simp only [MemStore.get_todo, hget]
      rw [if_pos hcond]
    · simp only [MemStore.update_todo, hget]
      rw [if_pos hcond]
    · simp only [MemStore.update_todo, hget]
      rw [if_pos hcond]
    · simp only [MemStore.delete_todo, hget]
      rw [if_neg hcond₂]
    · simp only [MemStore.delete_todo, hget]
      rw [if_neg hcond₂]
  · intro t hok
    unfold MongoStore.get_todo at hok
    split at hok
    · split at hok
      next todo hfind =>
        have hp := List.find?_some hfind
        obtain rfl : todo = t := by simpa using hok
        simp [mongoOwnFilter] at hp
        exact ⟨hp.2.1, hp.2.2⟩
      next => exact absurd hok (by simp)
    · exact absurd hok (by simp)
  · intro ts hok
    unfold MongoStore.get_todos at hok
    split at hok
    · obtain rfl : _ = ts := by simpa using hok
      intro t ht
      simp only [List.mem_filter] at ht
      simpa using ht.2
    · exact absurd hok (by simp)
  · intro t hok
    unfold MongoStore.update_todo at hok
    split at hok
    · split at hok
      next todo hfind =>
        have hp := List.find?_some hfind
        obtain rfl : todo = t := by simpa using hok
        simp [mongoOwnFilter] at hp
        exact ⟨hp.2.1, hp.2.2⟩
      next => exact absurd hok (by simp)
    · exact absurd hok (by simp)
  · intro t hok
    unfold MongoStore.delete_todo at hok
    split at hok
    · split at hok
      next todo hfind =>
        have hp := List.find?_some hfind
        obtain rfl : todo = t := by simpa using hok
        simp [mongoOwnFilter] at hp
        exact ⟨hp.2.1, hp.2.2⟩
      next => exact absurd hok (by simp)
    · exact absurd hok (by simp)
  · intro hav hnone
    refine ⟨?_, ?_, ?_⟩
    · unfold MongoStore.get_todo
      rw [if_pos hav, hnone]
    · unfold MongoStore.update_todo
      rw [if_pos hav, hnone]
    · unfold MongoStore.delete_todo
      rw [if_pos hav, hnone]

/-- C5 witness: the scoping theorem applied at a concrete map and a
concrete Mongo collection — the owner's read matches its context, a
different user's `MemStore` update is rejected as `Unauthorized` leaving
the map unchanged, and the same user's Mongo update and delete are rejected
as `NotFound` leaving the collection unchanged. -/
theorem C5_ownership_scoping_witness :
    (todoA.tenant_id = ctxA.tenant_id ∧ todoA.user_id = ctxA.user_id)
    ∧ (MemStore.update_todo mapA ctxB "t1" updA).1 = .error .unauthorized
    ∧ (MemStore.update_todo mapA ctxB "t1" updA).2 = mapA
    ∧ MongoStore.update_todo colA ctxB "t1" updA = (.error .notFound, colA)
    ∧ MongoStore.delete_todo colA ctxB "t1" = (.error .notFound, colA) :=
  ⟨(C5_ownership_scoping mapA ctxA "t1" updA colA).1 todoA (by rfl),
   ((C5_ownership_scoping mapA ctxB "t1" updA colA).2.2.2.2.1 todoA (by rfl)
      (Or.inr (by decide))).2.1,
   ((C5_ownership_scoping mapA ctxB "t1" updA colA).2.2.2.2.1 todoA (by rfl)
      (Or.inr (by decide))).2.2.1,
   ((C5_ownership_scoping mapA ctxB "t1" updA colA).2.2.2.2.2.2.2.2.2 rfl
      (by decide)).2.1,
   ((C5_ownership_scoping mapA ctxB "t1" updA colA).2.2.2.2.2.2.2.2.2 rfl
      (by decide)).2.2⟩

/-! ### C6 -/

/-- After a hit, the promoted cache still answers the same user for the same
key. -/
theorem UserCache.get_fst_promote (c : UserCache) (k : String) (u : User)
    (c₁ : UserCache) (h : c.get k = (some u, c₁)) : (c₁.get k).1 = some u := by
  unfold UserCache.get at h ⊢
  split at h
  · exact absurd (congrArg Prod.fst h) (by simp)
  · next e hf =>
      have hpred : (e.fst = k) := by
        have := List.find?_some hf
        simpa using this
      obtain ⟨rfl, rfl⟩ : e.snd = u ∧
          ({ c with entries := e :: c.entries.filter (fun e₂ => e₂.fst ≠ k) }
            : UserCache) = c₁ := by
        constructor
        · simpa using congrArg Prod.fst h
        · simpa using congrArg Prod.snd h
      simp [List.find?_cons, hpred]

/-- A miss leaves the cache untouched. -/
theorem UserCache.get_none_snd (c : UserCache) (k : String)
    (h : (c.get k).1 = none) : (c.get k).2 = c := by
  unfold UserCache.get at h ⊢
  split at h
  · rfl
  · exact absurd h (by simp)

/-- If a lookup right after `put k u` hits, it returns `u`. -/
theorem UserCache.get_put_some (c : UserCache) (k : String) (u u₂ : User)
    (h : ((c.put k u).get k).1 = some u₂) : u₂ = u := by
  unfold UserCache.put UserCache.get at h
  rcases hcap : c.capacity with _ | n
  · rw [hcap] at h
    simp at h
  · rw [hcap] at h
    simp only [List.take_succ_cons, List.find?_cons] at h
    simp at h
    exact h.symm

/-- C6: resolving the same external id twice in sequence, with no
intervening mutation of the user store, produces the same outcome — in
particular the same `UserContext`, with the same tenant id and user id, on
both calls. -/
theorem C6_resolution_idempotent (cache : UserCache) (store : UserStore)
    (ext : String) :
    (resolveUser (resolveUser cache store ext).2 store ext).1
      = (resolveUser cache store ext).1 := by
  unfold resolveUser
  rcases hget : UserCache.get cache ext with ⟨o₁, c₁⟩
  cases o₁ with
  | some u =>
    have h₂ := UserCache.get_fst_promote cache ext u c₁ hget
    rcases hget₂ : UserCache.get c₁ ext with ⟨o₂, c₂⟩
    rw [hget₂] at h₂
    simp only at h₂
    subst h₂
    simp [hget, hget₂]
  | none =>
    have hc₁ : c₁ = cache := by
      have := UserCache.get_none_snd cache ext (by rw [hget])
      rw [hget] at this
      exact this
    subst hc₁
    rcases hstore : MongoStore.get_user store ext with e | o
    · simp [hget, hstore]
    · cases o with
      | some u =>
        rcases hget₂ : UserCache.get (UserCache.put c₁ ext u) ext with ⟨o₂, c₂⟩
        cases o₂ with
        | some u₂ =>
          have : u₂ = u := by
            apply UserCache.get_put_some c₁ ext u u₂
            rw [hget₂]
          subst this
          simp [hget, hstore, hget₂]
        | none =>
          simp [hget, hstore, hget₂]
      | none =>
        simp [hget, hstore]

/-! ### C7 / C10 -/

/-- Looking up the key just written by `add` returns the written value. -/
theorem Credentials.get_add_self (c : Credentials) (k : String)
    (v : TokenStr) : (c.add k v).get k = some v := by
  unfold Credentials.add Credentials.get
  simp [List.find?_cons]

/-- Filtering key `k` out does not change a lookup for a different key. -/
theorem find?_filter_of_ne (l : List (String × TokenStr)) (k k₂ : String)
    (h : k₂ ≠ k) :
    (l.filter (fun e => e.fst ≠ k)).find? (fun e => e.fst = k₂)
      = l.find? (fun e => e.fst = k₂) := by
  rw [List.find?_filter]
  congr 1
  funext a
  by_cases ha : a.fst = k₂
  · have hak : ¬ a.fst = k := by rw [ha]; exact h
    simp [ha, hak, h]
  · simp [ha]

/-- Writing one key does not change a lookup for a different key. -/
theorem Credentials.get_add_other (c : Credentials) (k k₂ : String)
    (v : TokenStr) (h : k₂ ≠ k) : (c.add k v).get k₂ = c.get k₂ := by
  unfold Credentials.add Credentials.get
  have hp : ¬ (((k, v) : String × TokenStr).fst = k₂) := fun h₂ => h h₂.symm
  rw [List.find?_cons_of_neg _ (by simpa using hp),
    find?_filter_of_ne c k k₂ h]

/-- C7: with a stored access/refresh token pair whose access token is
expired (embedded `exp` in the past, or undecodable), `get_token` issues
exactly one refresh call; on a refresh failure the error propagates with
nothing saved; on a refresh response carrying both tokens, the new pair is
persisted — both entries of the credential store overwritten — and the new
access token is returned. -/
theorem C7_expired_token_refreshes_once (creds : Credentials) (now : Int)
    (tok rtok : TokenStr) (refreshResp : Except Unit TokenResponse)
    (hat : creds.get "access_token" = some tok)
    (hrt : creds.get "refresh_token" = some rtok)
    (hexp : is_token_expired tok now = true) :
    (get_token (.ok creds) now refreshResp true).refreshCalls = 1
    ∧ (∀ err, refreshResp = .error err →
        (get_token (.ok creds) now refreshResp true).outcome = .err
        ∧ (get_token (.ok creds) now refreshResp true).saved = none)
    ∧ (∀ tr na nr, refreshResp = .ok tr → tr.access_token = some na →
        tr.refresh_token = some nr →
        (get_token (.ok creds) now refreshResp true).outcome = .ok (some na)
        ∧ ∃ c₁, (get_token (.ok creds) now refreshResp true).saved = some c₁
          ∧ c₁.get "access_token" = some na
          ∧ c₁.get "refresh_token" = some nr) := by
  refine ⟨?_, ?_, ?_⟩
  · rcases refreshResp with err | tr
    · simp [get_token, hat, hrt, hexp]
    · rcases hna : tr.access_token with _ | na
      · simp [get_token, hat, hrt, hexp, hna]
      · rcases hnr : tr.refresh_token with _ | nr
        · simp [get_token, hat, hrt, hexp, hna, hnr]
        · simp [get_token, hat, hrt, hexp, hna, hnr]
  · intro err heq
    subst heq
    constructor <;> simp [get_token, hat, hrt, hexp]
  · intro tr na nr heq hna hnr
    subst heq
    refine ⟨?_, (creds.add "access_token" na).add "refresh_token" nr,
      ?_, ?_, ?_⟩
    · simp [get_token, hat, hrt, hexp, hna, hnr]
    · simp [get_token, hat, hrt, hexp, hna, hnr]
    · rw [Credentials.get_add_other _ _ _ _ (by decide)]
      exact Credentials.get_add_self _ _ _
    · exact Credentials.get_add_self _ _ _

/-- C7 witness: the refresh theorem applied at the concrete stale store and
a concrete successful refresh response. -/
theorem C7_expired_token_refreshes_once_witness :
    (get_token (.ok credsStale) 200 (.ok trNew) true).refreshCalls = 1
    ∧ (get_token (.ok credsStale) 200 (.ok trNew) true).outcome
        = .ok (some tokNewA) :=
  ⟨(C7_expired_token_refreshes_once credsStale 200 tokStale tokR0
      (.ok trNew) rfl rfl rfl).1,
   ((C7_expired_token_refreshes_once credsStale 200 tokStale tokR0
      (.ok trNew) rfl rfl rfl).2.2 trNew tokNewA tokNewR rfl rfl rfl).1⟩

/-- C10: the claim says `get_token` is total — returns `Ok` or `Err` on
every refresh response, including one lacking `access_token` or
`refresh_token`.  Evaluating the code on a stored expired pair and a parsed
refresh response with no tokens shows it panics instead: the source calls
`token_response.access_token.unwrap()` on the `None` field. -/
theorem C10_refresh_without_tokens_panics :
    (get_token (.ok credsStale) 200 (.ok emptyRefreshResponse) true).outcome
      = .panicked := rfl

/-! ### C8 / C9 -/

/-- Reindexing of the poll instants when one cycle is peeled off. -/
theorem pollTimes_shift (t i n : Nat) :
    (List.range (n + 1)).map (fun j => t + j * i)
      = t :: (List.range n).map (fun j => (t + i) + j * i) := by
  rw [List.range_succ_eq_map, List.map_cons, List.map_map]
  refine congrArg₂ List.cons (by simp) ?_
  apply List.map_congr_left
  intro j hj
  simp [Function.comp, Nat.succ_mul]
  ring

/-- Consuming `k` not-yet-authorized responses and then one response
carrying an access token, all before expiry, ends in success with that very
response; one poll is issued per consumed response, at interval steps. -/
theorem pollLoop_notYet_then_success (e i : Nat) (resp : TokenResponse)
    (tok : TokenStr) (htok : resp.access_token = some tok) :
    ∀ (l : List PollResp) (t : Nat), (∀ r ∈ l, r.notYetAuthorized) →
      t + l.length * i < e →
      pollLoop e i (l ++ [.ok resp]) t
        = { outcome := .success resp,
            pollTimes := (List.range (l.length + 1)).map (fun j => t + j * i) }
    := by
  intro l
  induction l with
  | nil =>
    intro t hn ht
    have hte : t < e := by simpa using ht
    unfold pollLoop
    rw [if_neg (by omega)]
    simp [htok, List.range_succ]
  | cons r rest ih =>
    intro t hn ht
    have hte : t < e := lt_of_le_of_lt (Nat.le_add_right t _) ht
    have ht₂ : (t + i) + rest.length * i < e := by
      have harith : t + (r :: rest).length * i = (t + i) + rest.length * i :=
        by simp [List.length_cons]; ring
      rwa [harith] at ht
    obtain ⟨r₂, rfl, hacc⟩ := hn r (List.mem_cons_self r rest)
    unfold pollLoop
    rw [if_neg (by omega)]
    simp only [List.cons_append, hacc]
    rw [ih (t + i) (fun r₃ hr => hn r₃ (List.mem_cons_of_mem _ hr)) ht₂]
    simp only [List.length_cons, pollTimes_shift]

/-- C8: every poll response lacking `access_token` is treated as
not-yet-authorized and causes another wait-then-poll cycle (one poll per
such response, `interval` seconds apart), and a run of finitely many such
responses followed — before the session expiry — by a response carrying an
access token terminates in success returning exactly that response. -/
theorem C8_not_yet_then_success (e i : Nat) (l : List PollResp)
    (resp : TokenResponse) (tok : TokenStr)
    (hn : ∀ r ∈ l, r.notYetAuthorized) (htok : resp.access_token = some tok)
    (hbefore : l.length * i < e) :
    pollLoop e i (l ++ [.ok resp]) 0
      = { outcome := .success resp,
          pollTimes := (List.range (l.length + 1)).map (fun j => j * i) } := by
  have h := pollLoop_notYet_then_success e i resp tok htok l 0 hn
    (by simpa using hbefore)
  simpa using h

/-- C8 witness: three not-yet-authorized responses, then a response with
access token `abc`, inside a 900-second session polled every 5 seconds:
the flow succeeds with that response, and the returned access token is the
string `abc`. -/
theorem C8_not_yet_then_success_witness :
    pollLoop 900 5
        ([.ok notYetResp, .ok notYetResp, .ok notYetResp] ++ [.ok abcResp]) 0
      = { outcome := .success abcResp, pollTimes := [0, 5, 10, 15] }
    ∧ abcResp.access_token = some { raw := "abc", payloadExp := none } :=
  ⟨(C8_not_yet_then_success 900 5
      [.ok notYetResp, .ok notYetResp, .ok notYetResp] abcResp
      { raw := "abc", payloadExp := none }
      (by decide) rfl (by decide)).trans (by rfl),
   rfl⟩

/-- Every poll the loop ever issues happens strictly before the expiry
instant: the expiry check runs at the top of each cycle, before the poll. -/
theorem pollLoop_no_poll_after_expiry (e i : Nat) :
    ∀ (rs : List PollResp) (t u : Nat),
      u ∈ (pollLoop e i rs t).pollTimes → u < e := by
  intro rs
  induction rs with
  | nil =>
    intro t u hu
    unfold pollLoop at hu
    by_cases hte : e ≤ t
    · rw [if_pos hte] at hu; simp at hu
    · rw [if_neg hte] at hu; simp at hu
  | cons r rest ih =>
    intro t u hu
    unfold pollLoop at hu
    by_cases hte : e ≤ t
    · rw [if_pos hte] at hu; simp at hu
    · rw [if_neg hte] at hu
      cases r with
      | transportErr =>
        simp at hu
        omega
      | ok resp =>
        cases hacc : resp.access_token with
        | some tok =>
          simp only [hacc] at hu
          simp at hu
          omega
        | none =>
          simp only [hacc] at hu
          simp at hu
          rcases hu with rfl | hu₂
          · omega
          · exact ih (t + i) u hu₂

/-- With only not-yet-authorized responses available and enough of them to
cross the expiry bound, the loop terminates with the device-code-expired
failure. -/
theorem pollLoop_expires (e i : Nat) :
    ∀ (rs : List PollResp) (t : Nat), (∀ r ∈ rs, r.notYetAuthorized) →
      e ≤ t + rs.length * i →
      (pollLoop e i rs t).outcome = .deviceCodeExpired := by
  intro rs
  induction rs with
  | nil =>
    intro t hn hlen
    unfold pollLoop
    rw [if_pos (by simpa using hlen)]
  | cons r rest ih =>
    intro t hn hlen
    unfold pollLoop
    by_cases hte : e ≤ t
    · rw [if_pos hte]
    · rw [if_neg hte]
      obtain ⟨r₂, rfl, hacc⟩ := hn r (List.mem_cons_self r rest)
      simp only [hacc]
      apply ih (t + i) (fun r₃ hr => hn r₃ (List.mem_cons_of_mem _ hr))
      have harith : t + (PollResp.ok r₂ :: rest).length * i
          = (t + i) + rest.length * i := by
        simp [List.length_cons]
        ring
      rwa [harith] at hlen

/-- C9: when every available poll response lacks an access token and the
polling budget crosses the session expiry, the flow terminates with the
device-code-expired failure, and every poll it issued happened strictly
before the expiry instant — no poll is issued at or after expiry. -/
theorem C9_expiry_terminates_polling (e i : Nat) (rs : List PollResp)
    (hn : ∀ r ∈ rs, r.notYetAuthorized) (hlen : e ≤ rs.length * i) :
    (pollLoop e i rs 0).outcome = .deviceCodeExpired
    ∧ ∀ u ∈ (pollLoop e i rs 0).pollTimes, u < e :=
  ⟨pollLoop_expires e i rs 0 hn (by simpa using hlen),
   fun u hu => pollLoop_no_poll_after_expiry e i rs 0 u hu⟩

/-- C9 witness: a 10-second session polled every 5 seconds with two
not-yet-authorized responses expires, and both polls happened before the
expiry instant. -/
theorem C9_expiry_terminates_polling_witness :
    (pollLoop 10 5 [.ok notYetResp, .ok notYetResp] 0).outcome
        = .deviceCodeExpired
    ∧ ∀ u ∈ (pollLoop 10 5 [.ok notYetResp, .ok notYetResp] 0).pollTimes,
        u < 10 :=
  C9_expiry_terminates_polling 10 5 [.ok notYetResp, .ok notYetResp]
    (by decide) (by decide)

end Todors
